import Mathlib

/-!
Verification of the MockServer HTTP client (`src/mockserver-client.ts`) against
its natural-language specification.  The client is embedded shallowly: the
transport (`fetch`) is modelled by an explicit `FetchOutcome` describing what
the network did, the platform's `JSON.parse` by an abstract
`parse : String → Option Json` argument, and each client method becomes a pure
function from its inputs and the fetch outcome to the wire request it sends
and the result or typed failure it produces.
-/

/-- JSON values, the data interchanged with MockServer. -/
inductive Json where
  | null : Json
  | bool (b : Bool) : Json
  | num (n : Int) : Json
  | str (s : String) : Json
  | arr (elems : List Json) : Json
  | obj (fields : List (String × Json)) : Json

/-- Property access `j.key` as JavaScript resolves it on a parsed JSON value:
a field of an object, `undefined` (here `none`) on anything else. -/
def Json.getField (j : Json) (key : String) : Option Json :=
  match j with
  | .obj fields => fields.lookup key
  | _ => none

/-- The `ErrorCodes` constants of `src/types/errors.ts`. -/
inductive ErrorCode where
  | CONNECTION_FAILED
  | CONNECTION_TIMEOUT
  | INVALID_PARAMETERS
  | MISSING_REQUIRED_FIELD
  | MOCKSERVER_ERROR
  | VERIFICATION_FAILED
  | EXPECTATION_NOT_FOUND
  | UNKNOWN_ERROR
deriving Repr, DecidableEq

/-- The `ToolError` class of `src/types/errors.ts`: code, message and an
optional details map (`none` when the constructor's third argument is
omitted).  Detail values are JSON values (`statusCode` is a number, `host`
and `originalError` are strings). -/
structure ToolError where
  code : ErrorCode
  message : String
  details : Option (List (String × Json)) := none

/-- An underlying JavaScript `Error`: the `name` and `message` fields the
classification code inspects. -/
structure JsError where
  name : String
  message : String
deriving Repr, DecidableEq

/-- Outcome of reading a response body as text: the text, or the read failed
(rejected promise carrying a JavaScript error). -/
inductive BodyRead where
  | ok (text : String) : BodyRead
  | failed (e : JsError) : BodyRead
deriving Repr, DecidableEq

/-- What the text of a non-success body is reported as: the text itself, or
the placeholder installed by `.catch(() => 'Unknown error')`. -/
def BodyRead.asText : BodyRead → String
  | .ok t => t
  | .failed _ => "Unknown error"

/-- What the transport (`fetch`) did: delivered a response with a status and
a body read, rejected with a JavaScript `Error`, or rejected with a
non-`Error` thrown value. -/
inductive FetchOutcome where
  | response (status : Nat) (body : BodyRead) : FetchOutcome
  | errorThrown (e : JsError) : FetchOutcome
  | nonErrorThrown (s : String) : FetchOutcome

/-- A value reaching the `catch` block of `MockServerClient.request`: one of
this system's own `ToolError`s, a JavaScript `Error`, or anything else. -/
inductive CaughtError where
  | tool (e : ToolError) : CaughtError
  | js (e : JsError) : CaughtError
  | other (s : String) : CaughtError

/-- Whether `pat` is a leading segment of `l`. -/
def isPrefixChars : List Char → List Char → Bool
  | [], _ => true
  | _ :: _, [] => false
  | p :: ps, x :: xs => p = x && isPrefixChars ps xs

/-- Whether `pat` occurs somewhere in `l`. -/
def hasSub (pat : List Char) : List Char → Bool
  | [] => isPrefixChars pat []
  | x :: xs => isPrefixChars pat (x :: xs) || hasSub pat xs

/-- JavaScript's `s.includes(pat)`. -/
def containsSubstr (s pat : String) : Bool :=
  hasSub pat.data s.data

/-- Decimal digit `d` as a character (`0 ≤ d ≤ 9` in all uses). -/
def digitChar (d : Nat) : Char := Char.ofNat (48 + d)

/-- Numeric value of a decimal digit character. -/
def charVal (c : Char) : Nat := c.toNat - 48

/-- Little-endian decimal digits of `n`, with explicit fuel (`n ≤ fuel`
suffices). -/
def natDigitsRev : Nat → Nat → List Nat
  | 0, _ => []
  | fuel + 1, n => if n = 0 then [] else n % 10 :: natDigitsRev fuel (n / 10)

/-- Decimal rendering of a natural number, as JavaScript string
interpolation of a non-negative integer produces it. -/
def natToString (n : Nat) : String :=
  if n = 0 then "0" else String.mk (((natDigitsRev n n).reverse).map digitChar)

/-- Value of a big-endian digit list. -/
def digitsToNat (ds : List Nat) : Nat :=
  ds.foldl (fun a d => a * 10 + d) 0

/-- JavaScript's `parseInt(s, 10)` restricted to the inputs arising here
(no leading whitespace or sign): the value of the leading run of decimal
digits, `none` (NaN) when there is no such digit. -/
def parseIntJS (s : String) : Option Nat :=
  let ds := s.data.takeWhile Char.isDigit
  if ds.isEmpty then none else some (digitsToNat (ds.map charVal))

/-- JavaScript's `String.prototype.split` with a one-character separator. -/
def splitChar (c : Char) : List Char → List (List Char)
  | [] => [[]]
  | x :: xs =>
    if x = c then [] :: splitChar c xs
    else
      match splitChar c xs with
      | [] => [[x]]
      | y :: ys => (x :: y) :: ys

/-- The characters of the scheme `"http://"` the base URL begins with. -/
def schemeChars : List Char := ['h', 't', 't', 'p', ':', '/', '/']

/-- JavaScript's `s.replace('http://', '')` as `getStatus` applies it: the
stored base URL always begins with the scheme, so replacing the first
occurrence removes exactly that leading segment. -/
def dropSchemeChars : List Char → List Char
  | 'h' :: 't' :: 't' :: 'p' :: ':' :: '/' :: '/' :: rest => rest
  | l => l

/-- The `MockServerClientConfig` interface: host, port, optional timeout. -/
structure MockServerClientConfig where
  host : String
  port : Nat
  timeout : Option Nat := none
deriving Repr, DecidableEq

/-- The base URL stored by the constructor: `http://{host}:{port}`. -/
def MockServerClient.baseUrl (cfg : MockServerClientConfig) : String :=
  String.mk (schemeChars ++ cfg.host.data ++ ':' :: (natToString cfg.port).data)

/-- The timeout stored by the constructor: `config.timeout ?? 5000`. -/
def MockServerClient.timeoutMs (cfg : MockServerClientConfig) : Nat :=
  cfg.timeout.getD 5000

/-- The `catch` block of `MockServerClient.request`: a `ToolError` is
re-raised unchanged; an `AbortError` becomes `CONNECTION_TIMEOUT`; an error
whose message carries a connection-refused or network-failure signature
becomes `CONNECTION_FAILED`; anything else becomes `UNKNOWN_ERROR`. -/
def classifyError (base : String) (tmo : Nat) : CaughtError → ToolError
  | .tool e => e
  | .js e =>
    if e.name = "AbortError" then
      { code := .CONNECTION_TIMEOUT,
        message := "Connection to MockServer timed out after " ++ natToString tmo ++ "ms",
        details := some [("host", Json.str base)] }
    else if containsSubstr e.message "ECONNREFUSED" || containsSubstr e.message "fetch failed"
        || containsSubstr e.message "network" then
      { code := .CONNECTION_FAILED,
        message := "Cannot connect to MockServer at " ++ base,
        details := some [("originalError", Json.str e.message)] }
    else
      { code := .UNKNOWN_ERROR,
        message := "Unexpected error: " ++ e.message,
        details := none }
  | .other s =>
    { code := .UNKNOWN_ERROR,
      message := "Unexpected error: " ++ s,
      details := none }

/-- `response.ok`: status in the range 200–299. -/
def responseOk (status : Nat) : Bool :=
  decide (200 ≤ status) && decide (status ≤ 299)

/-- Result of the internal request primitive on a success status: a parsed
JSON value, or the raw body text when the body does not parse. -/
inductive ReqResult where
  | json (j : Json) : ReqResult
  | text (s : String) : ReqResult

/-- JavaScript's `Array.isArray` on a request result. -/
def ReqResult.isArrayRes : ReqResult → Bool
  | .json (.arr _) => true
  | _ => false

/-- The response-interpretation and error-classification body of
`MockServerClient.request`, given what the transport did.  `parse` stands
for the platform's `JSON.parse` (`none` = the parse threw). -/
def requestResult (base : String) (tmo : Nat) (parse : String → Option Json) :
    FetchOutcome → Except ToolError ReqResult
  | .response status body =>
    if responseOk status then
      match body with
      | .failed e => .error (classifyError base tmo (.js e))
      | .ok text =>
        if text = "" then .ok (.json (.obj []))
        else
          match parse text with
          | some j => .ok (.json j)
          | none => .ok (.text text)
    else
      if status = 406 then
        .error (classifyError base tmo (.tool
          { code := .VERIFICATION_FAILED,
            message := "Verification failed: " ++ body.asText,
            details := some [("statusCode", Json.num (Int.ofNat status))] }))
      else
        .error (classifyError base tmo (.tool
          { code := .MOCKSERVER_ERROR,
            message := "MockServer error: " ++ body.asText,
            details := some [("statusCode", Json.num (Int.ofNat status))] }))
  | .errorThrown e => .error (classifyError base tmo (.js e))
  | .nonErrorThrown s => .error (classifyError base tmo (.other s))

/-- `URLSearchParams(...).toString()` for the plain ASCII pairs used here. -/
def encodeQuery : List (String × String) → String
  | [] => ""
  | [kv] => kv.1 ++ "=" ++ kv.2
  | kv :: rest => kv.1 ++ "=" ++ kv.2 ++ "&" ++ encodeQuery rest

/-- URL construction of `MockServerClient.request`: base plus path, plus the
encoded query parameters when given. -/
def requestUrl (base path : String) (queryParams : Option (List (String × String))) : String :=
  match queryParams with
  | none => base ++ path
  | some qs => base ++ path ++ "?" ++ encodeQuery qs

/-- The outbound HTTP request a method sends: URL, method, JSON body. -/
structure WireRequest where
  url : String
  method : String
  body : Json

/-- The internal request primitive `MockServerClient.request`: what is sent
on the wire, paired with the interpreted result or typed failure. -/
def MockServerClient.request (cfg : MockServerClientConfig)
    (path method : String) (body : Json)
    (queryParams : Option (List (String × String)))
    (parse : String → Option Json) (outcome : FetchOutcome) :
    WireRequest × Except ToolError ReqResult :=
  ({ url := requestUrl (MockServerClient.baseUrl cfg) path queryParams,
     method := method, body := body },
   requestResult (MockServerClient.baseUrl cfg) (MockServerClient.timeoutMs cfg) parse outcome)

/-- `MockServerClient.createExpectation`: `PUT /mockserver/expectation` with
the expectation verbatim as body; resolves with no value on success. -/
def MockServerClient.createExpectation (cfg : MockServerClientConfig)
    (expectation : Json) (parse : String → Option Json) (outcome : FetchOutcome) :
    WireRequest × Except ToolError Unit :=
  let r := MockServerClient.request cfg "/mockserver/expectation" "PUT" expectation none parse outcome
  (r.1, r.2.map fun _ => ())

/-- The `Times` interface: any subset of atLeast, atMost, exactly. -/
structure Times where
  atLeast : Option Nat := none
  atMost : Option Nat := none
  exactly : Option Nat := none
deriving Repr, DecidableEq

/-- JSON serialization of a `Times` value (undefined fields omitted, as
`JSON.stringify` omits them). -/
def Times.toJson (t : Times) : Json :=
  Json.obj
    ((match t.atLeast with | some n => [("atLeast", Json.num (Int.ofNat n))] | none => []) ++
     (match t.atMost with | some n => [("atMost", Json.num (Int.ofNat n))] | none => []) ++
     (match t.exactly with | some n => [("exactly", Json.num (Int.ofNat n))] | none => []))

/-- The `VerificationResult` interface. -/
structure VerificationResult where
  success : Bool
  matchedCount : Nat
  message : Option String := none
deriving Repr, DecidableEq

/-- `MockServerClient.verify`: body `{httpRequest, times?}`; on success the
matched count is `times?.exactly ?? times?.atLeast ?? 1`; a raised
`VERIFICATION_FAILED` is converted to a negative result; any other failure
is re-raised. -/
def MockServerClient.verify (cfg : MockServerClientConfig) (matcher : Json)
    (times : Option Times) (parse : String → Option Json) (outcome : FetchOutcome) :
    WireRequest × Except ToolError VerificationResult :=
  let body := Json.obj (("httpRequest", matcher) ::
    (match times with | some t => [("times", t.toJson)] | none => []))
  let r := MockServerClient.request cfg "/mockserver/verify" "PUT" body none parse outcome
  (r.1,
   match r.2 with
   | .ok _ =>
     .ok { success := true,
           matchedCount :=
             match times.bind Times.exactly with
             | some k => k
             | none =>
               match times.bind Times.atLeast with
               | some a => a
               | none => 1,
           message := none }
   | .error e =>
     if e.code = ErrorCode.VERIFICATION_FAILED then
       .ok { success := false, matchedCount := 0, message := some e.message }
     else
       .error e)

/-- `MockServerClient.clear`: body `{httpRequest: matcher}` when a matcher is
given, `{}` otherwise. -/
def MockServerClient.clear (cfg : MockServerClientConfig) (matcher : Option Json)
    (parse : String → Option Json) (outcome : FetchOutcome) :
    WireRequest × Except ToolError Unit :=
  let body := match matcher with
    | some m => Json.obj [("httpRequest", m)]
    | none => Json.obj []
  let r := MockServerClient.request cfg "/mockserver/clear" "PUT" body none parse outcome
  (r.1, r.2.map fun _ => ())

/-- `MockServerClient.reset`: `PUT /mockserver/reset` with body `{}`. -/
def MockServerClient.reset (cfg : MockServerClientConfig)
    (parse : String → Option Json) (outcome : FetchOutcome) :
    WireRequest × Except ToolError Unit :=
  let r := MockServerClient.request cfg "/mockserver/reset" "PUT" (Json.obj []) none parse outcome
  (r.1, r.2.map fun _ => ())

/-- `MockServerClient.retrieveRecordedRequests`: `PUT /mockserver/retrieve`
with query `type=REQUESTS`; returns the response verbatim when it is a JSON
array and `[]` otherwise. -/
def MockServerClient.retrieveRecordedRequests (cfg : MockServerClientConfig)
    (matcher : Option Json) (parse : String → Option Json) (outcome : FetchOutcome) :
    WireRequest × Except ToolError (List Json) :=
  let body := match matcher with
    | some m => Json.obj [("httpRequest", m)]
    | none => Json.obj []
  let r := MockServerClient.request cfg "/mockserver/retrieve" "PUT" body
    (some [("type", "REQUESTS")]) parse outcome
  (r.1, r.2.map fun res =>
    match res with
    | .json (.arr xs) => xs
    | _ => [])

/-- The `ServerStatus` interface.  `port` is `none` when the parse produced
NaN; `version` holds whatever value the `version` field of the response body
had, `none` when absent. -/
structure ServerStatus where
  host : String
  port : Option Nat
  reachable : Bool
  version : Option Json := none

/-- The host component `getStatus` recovers from the stored base URL:
strip the scheme, split on `:`, take the first segment. -/
def statusHostOf (cfg : MockServerClientConfig) : String :=
  String.mk ((splitChar ':' (dropSchemeChars (MockServerClient.baseUrl cfg).data)).getD 0 [])

/-- The port component `getStatus` recovers from the stored base URL:
strip the scheme, split on `:`, `parseInt` the second segment. -/
def statusPortOf (cfg : MockServerClientConfig) : Option Nat :=
  parseIntJS (String.mk ((splitChar ':' (dropSchemeChars (MockServerClient.baseUrl cfg).data)).getD 1 []))

/-- The opportunistic `(response as {version?: string})?.version` read. -/
def versionField (r : ReqResult) : Option Json :=
  match r with
  | .json j => j.getField "version"
  | .text _ => none

/-- `MockServerClient.getStatus`: probes `/mockserver/status`; converts
`CONNECTION_FAILED` and `CONNECTION_TIMEOUT` into a not-reachable status;
re-raises every other failure. -/
def MockServerClient.getStatus (cfg : MockServerClientConfig)
    (parse : String → Option Json) (outcome : FetchOutcome) :
    WireRequest × Except ToolError ServerStatus :=
  let host := statusHostOf cfg
  let port := statusPortOf cfg
  let r := MockServerClient.request cfg "/mockserver/status" "PUT" (Json.obj []) none parse outcome
  (r.1,
   match r.2 with
   | .ok res =>
     .ok { host := host, port := port, reachable := true, version := versionField res }
   | .error e =>
     if e.code = ErrorCode.CONNECTION_FAILED ∨ e.code = ErrorCode.CONNECTION_TIMEOUT then
       .ok { host := host, port := port, reachable := false, version := none }
     else
       .error e)

/-- The matched count exactly as the specification words it: the supplied
count spec's `exactly` value if present, else its `atLeast` value if
present, else 1. -/
def specVerifyCount : Option Times → Nat
  | none => 1
  | some t =>
    match t.exactly with
    | some k => k
    | none =>
      match t.atLeast with
      | some a => a
      | none => 1

/-! Helper lemmas about the decimal rendering/parsing pair and the splitter,
used to settle the `getStatus` host/port recovery claim. -/

theorem digitsToNat_append (l : List Nat) (d : Nat) :
    digitsToNat (l ++ [d]) = digitsToNat l * 10 + d := by
  simp [digitsToNat, List.foldl_append]

theorem natDigitsRev_lt10 (fuel : Nat) : ∀ n d, d ∈ natDigitsRev fuel n → d < 10 := by
  induction fuel with
  | zero => intro n d h; simp [natDigitsRev] at h
  | succ fuel ih =>
    intro n d h
    by_cases hn : n = 0
    · simp [natDigitsRev, hn] at h
    · simp only [natDigitsRev, if_neg hn, List.mem_cons] at h
      rcases h with h | h
      · subst h; omega
      · exact ih _ _ h

theorem natDigitsRev_val (fuel : Nat) : ∀ n, n ≤ fuel →
    digitsToNat (natDigitsRev fuel n).reverse = n := by
  induction fuel with
  | zero =>
    intro n h
    have hn : n = 0 := by omega
    subst hn
    simp [natDigitsRev, digitsToNat]
  | succ fuel ih =>
    intro n h
    by_cases hn : n = 0
    · subst hn; simp [natDigitsRev, digitsToNat]
    · have h10 : n / 10 ≤ fuel := by omega
      simp only [natDigitsRev, if_neg hn, List.reverse_cons]
      rw [digitsToNat_append, ih _ h10]
      omega

theorem charVal_digitChar : ∀ d, d < 10 → charVal (digitChar d) = d := by decide

theorem isDigit_digitChar : ∀ d, d < 10 → (digitChar d).isDigit = true := by decide

theorem takeWhile_of_all {p : Char → Bool} (l : List Char)
    (h : ∀ c ∈ l, p c = true) : l.takeWhile p = l := by
  induction l with
  | nil => rfl
  | cons x xs ih =>
    rw [List.takeWhile_cons, if_pos (h x (by simp)), ih (fun c hc => h c (by simp [hc]))]

theorem map_charVal_digitChar (l : List Nat) (h : ∀ d ∈ l, d < 10) :
    (l.map digitChar).map charVal = l := by
  induction l with
  | nil => rfl
  | cons d ds ih =>
    simp only [List.map_cons]
    rw [charVal_digitChar d (h d (by simp)), ih (fun x hx => h x (by simp [hx]))]

theorem natToString_all_digits (n : Nat) :
    ∀ c ∈ (natToString n).data, c.isDigit = true := by
  intro c hc
  by_cases hn : n = 0
  · subst hn
    rw [natToString, if_pos rfl] at hc
    have h0 : ("0" : String).data = ['0'] := rfl
    rw [h0, List.mem_singleton] at hc
    subst hc
    decide
  · rw [natToString, if_neg hn] at hc
    have hdata : (String.mk (((natDigitsRev n n).reverse).map digitChar)).data
        = ((natDigitsRev n n).reverse).map digitChar := rfl
    rw [hdata] at hc
    rcases List.mem_map.1 hc with ⟨d, hd, rfl⟩
    exact isDigit_digitChar d (natDigitsRev_lt10 _ _ _ (List.mem_reverse.1 hd))

theorem natDigitsRev_self_ne_nil (n : Nat) (hn : n ≠ 0) : natDigitsRev n n ≠ [] := by
  cases n with
  | zero => exact absurd rfl hn
  | succ m => simp [natDigitsRev]

theorem parseIntJS_natToString (n : Nat) : parseIntJS (natToString n) = some n := by
  by_cases hn : n = 0
  · subst hn; decide
  · have hlt : ∀ d ∈ (natDigitsRev n n).reverse, d < 10 :=
      fun d hd => natDigitsRev_lt10 _ _ _ (List.mem_reverse.1 hd)
    have hall : ∀ c ∈ ((natDigitsRev n n).reverse).map digitChar, c.isDigit = true := by
      intro c hc
      rcases List.mem_map.1 hc with ⟨d, hd, rfl⟩
      exact isDigit_digitChar d (hlt d hd)
    rw [natToString, if_neg hn]
    simp only [parseIntJS]
    rw [takeWhile_of_all _ hall]
    have hne : ((natDigitsRev n n).reverse).map digitChar ≠ [] := by
      simp only [ne_eq, List.map_eq_nil_iff, List.reverse_eq_nil_iff]
      exact natDigitsRev_self_ne_nil n hn
    have hempty : (((natDigitsRev n n).reverse).map digitChar).isEmpty = false := by
      cases hL : ((natDigitsRev n n).reverse).map digitChar with
      | nil => exact absurd hL hne
      | cons x xs => rfl
    rw [hempty]
    simp only [Bool.false_eq_true, if_false]
    rw [map_charVal_digitChar _ hlt, natDigitsRev_val n n le_rfl]

theorem splitChar_cons (c x : Char) (xs : List Char) :
    splitChar c (x :: xs) = if x = c then [] :: splitChar c xs
      else match splitChar c xs with
        | [] => [[x]]
        | y :: ys => (x :: y) :: ys := rfl

theorem splitChar_of_not_mem (c : Char) (l : List Char) (h : c ∉ l) :
    splitChar c l = [l] := by
  induction l with
  | nil => rfl
  | cons x xs ih =>
    have hx : ¬ x = c := fun e => h (by simp [e])
    have hxs : c ∉ xs := fun hc => h (by simp [hc])
    simp only [splitChar, if_neg hx, ih hxs]

theorem splitChar_append_sep (c : Char) (l r : List Char) (h : c ∉ l) :
    splitChar c (l ++ c :: r) = l :: splitChar c r := by
  induction l with
  | nil => rw [List.nil_append, splitChar_cons, if_pos rfl]
  | cons x xs ih =>
    have hx : ¬ x = c := fun e => h (by simp [e])
    have hxs : c ∉ xs := fun hc => h (by simp [hc])
    rw [List.cons_append, splitChar_cons, if_neg hx, ih hxs]

theorem colon_not_mem_natToString (n : Nat) : ':' ∉ (natToString n).data := by
  intro hc
  have hd := natToString_all_digits n ':' hc
  exact absurd hd (by decide)

theorem statusParts_roundtrip (host : String) (port : Nat) (tmo : Option Nat)
    (hhost : ':' ∉ host.data) :
    statusHostOf ⟨host, port, tmo⟩ = host ∧
    statusPortOf ⟨host, port, tmo⟩ = some port := by
  have key : splitChar ':' (dropSchemeChars
        (MockServerClient.baseUrl ⟨host, port, tmo⟩).data)
      = [host.data, (natToString port).data] := by
    have hb : dropSchemeChars (MockServerClient.baseUrl ⟨host, port, tmo⟩).data
        = host.data ++ ':' :: (natToString port).data := rfl
    rw [hb, splitChar_append_sep ':' host.data _ hhost,
      splitChar_of_not_mem ':' _ (colon_not_mem_natToString port)]
  constructor
  · show String.mk ((splitChar ':' (dropSchemeChars
        (MockServerClient.baseUrl ⟨host, port, tmo⟩).data)).getD 0 []) = host
    rw [key]
    rfl
  · show parseIntJS (String.mk ((splitChar ':' (dropSchemeChars
        (MockServerClient.baseUrl ⟨host, port, tmo⟩).data)).getD 1 [])) = some port
    rw [key]
    show parseIntJS (String.mk (natToString port).data) = some port
    exact parseIntJS_natToString port

/-! The claims. -/

/-- C6: on every success-status response the request primitive's result is
determined by the body text alone: an empty body yields the empty-object
result, a non-empty body that parses yields the parsed value, and a
non-empty body that fails to parse yields the raw text, without raising. -/
theorem C6_success_body_interpretation (base : String) (tmo : Nat)
    (parse : String → Option Json) (status : Nat) (h : responseOk status = true) :
    (requestResult base tmo parse (.response status (.ok "")) = .ok (.json (.obj []))) ∧
    (∀ (text : String) (j : Json), text ≠ "" → parse text = some j →
      requestResult base tmo parse (.response status (.ok text)) = .ok (.json j)) ∧
    (∀ text : String, text ≠ "" → parse text = none →
      requestResult base tmo parse (.response status (.ok text)) = .ok (.text text)) := by
  refine ⟨?_, ?_, ?_⟩
  · simp [requestResult, h]
  · intro text j ht hp
    simp [requestResult, h, ht, hp]
  · intro text ht hp
    simp [requestResult, h, ht, hp]

/-- C6 witness: concrete success responses with an empty body, a body that
parses to a JSON array, and a body that does not parse. -/
theorem C6_witness :
    (requestResult "http://localhost:1080" 5000
        (fun s => if s = "arraybody" then some (Json.arr [Json.num 1]) else none)
        (.response 200 (.ok "arraybody")) = .ok (.json (Json.arr [Json.num 1]))) ∧
    (requestResult "http://localhost:1080" 5000
        (fun s => if s = "arraybody" then some (Json.arr [Json.num 1]) else none)
        (.response 200 (.ok "")) = .ok (.json (.obj []))) ∧
    (requestResult "http://localhost:1080" 5000
        (fun s => if s = "arraybody" then some (Json.arr [Json.num 1]) else none)
        (.response 200 (.ok "not json")) = .ok (.text "not json")) := by
  obtain ⟨h1, h2, h3⟩ := C6_success_body_interpretation "http://localhost:1080" 5000
    (fun s => if s = "arraybody" then some (Json.arr [Json.num 1]) else none) 200 (by decide)
  exact ⟨h2 "arraybody" _ (by decide) rfl, h1, h3 "not json" (by decide) rfl⟩

/-- C2 (amended): the request primitive classifies a pre-response failure
exactly once: an AbortError yields connection-timeout; an error whose
message matches a connection-refused or network-failure signature yields
connection-failed carrying the configured base address in its message and
the underlying error message in its detail; any other untyped failure
yields unknown-error; and a failure that is already a ToolError is
re-raised unchanged by the classification step. -/
theorem C2_error_classification (base : String) (tmo : Nat)
    (parse : String → Option Json) :
    (∀ e : JsError, e.name = "AbortError" →
      requestResult base tmo parse (.errorThrown e) = .error
        { code := .CONNECTION_TIMEOUT,
          message := "Connection to MockServer timed out after " ++ natToString tmo ++ "ms",
          details := some [("host", Json.str base)] }) ∧
    (∀ e : JsError, e.name ≠ "AbortError" →
      (containsSubstr e.message "ECONNREFUSED" || containsSubstr e.message "fetch failed"
        || containsSubstr e.message "network") = true →
      requestResult base tmo parse (.errorThrown e) = .error
        { code := .CONNECTION_FAILED,
          message := "Cannot connect to MockServer at " ++ base,
          details := some [("originalError", Json.str e.message)] }) ∧
    (∀ e : JsError, e.name ≠ "AbortError" →
      (containsSubstr e.message "ECONNREFUSED" || containsSubstr e.message "fetch failed"
        || containsSubstr e.message "network") = false →
      requestResult base tmo parse (.errorThrown e) = .error
        { code := .UNKNOWN_ERROR,
          message := "Unexpected error: " ++ e.message,
          details := none }) ∧
    (∀ s : String,
      requestResult base tmo parse (.nonErrorThrown s) = .error
        { code := .UNKNOWN_ERROR,
          message := "Unexpected error: " ++ s,
          details := none }) ∧
    (∀ te : ToolError, classifyError base tmo (.tool te) = te) := by
  refine ⟨?_, ?_, ?_, fun s => rfl, fun te => rfl⟩
  · intro e he
    simp [requestResult, classifyError, he]
  · intro e he hsig
    simp [requestResult, classifyError, he, hsig]
  · intro e he hsig
    simp only [Bool.or_eq_false_iff] at hsig
    simp [requestResult, classifyError, he, hsig.1.1, hsig.1.2, hsig.2]

/-- C2 witness: each classification branch at a concrete input. -/
theorem C2_witness :
    (requestResult "http://localhost:1080" 5000 (fun _ => none)
        (.errorThrown ⟨"AbortError", "This operation was aborted"⟩) = .error
      { code := .CONNECTION_TIMEOUT,
        message := "Connection to MockServer timed out after 5000ms",
        details := some [("host", Json.str "http://localhost:1080")] }) ∧
    (requestResult "http://localhost:1080" 5000 (fun _ => none)
        (.errorThrown ⟨"Error", "connect ECONNREFUSED 127.0.0.1:1080"⟩) = .error
      { code := .CONNECTION_FAILED,
        message := "Cannot connect to MockServer at http://localhost:1080",
        details := some [("originalError", Json.str "connect ECONNREFUSED 127.0.0.1:1080")] }) ∧
    (requestResult "http://localhost:1080" 5000 (fun _ => none)
        (.errorThrown ⟨"RangeError", "boom"⟩) = .error
      { code := .UNKNOWN_ERROR, message := "Unexpected error: boom", details := none }) ∧
    (requestResult "http://localhost:1080" 5000 (fun _ => none)
        (.nonErrorThrown "thrown text") = .error
      { code := .UNKNOWN_ERROR, message := "Unexpected error: thrown text", details := none }) ∧
    (classifyError "http://localhost:1080" 5000
        (.tool { code := .MOCKSERVER_ERROR, message := "m", details := none })
      = { code := .MOCKSERVER_ERROR, message := "m", details := none }) := by
  obtain ⟨h1, h2, h3, h4, h5⟩ :=
    C2_error_classification "http://localhost:1080" 5000 (fun _ => none)
  exact ⟨h1 ⟨"AbortError", "This operation was aborted"⟩ rfl,
    h2 ⟨"Error", "connect ECONNREFUSED 127.0.0.1:1080"⟩ (by decide) (by decide),
    h3 ⟨"RangeError", "boom"⟩ (by decide) (by decide),
    h4 "thrown text",
    h5 { code := .MOCKSERVER_ERROR, message := "m", details := none }⟩

/-- C2 counterexample to the claim as stated: at a concrete
connection-refused failure the raised connection-failed error's detail map
holds only the underlying error message; the configured base address does
not occur in it (it is carried in the message instead). -/
theorem C2_counterexample :
    (requestResult (MockServerClient.baseUrl ⟨"localhost", 1080, none⟩)
        (MockServerClient.timeoutMs ⟨"localhost", 1080, none⟩) (fun _ => none)
        (.errorThrown ⟨"TypeError", "fetch failed"⟩)
      = .error { code := .CONNECTION_FAILED,
                 message := "Cannot connect to MockServer at http://localhost:1080",
                 details := some [("originalError", Json.str "fetch failed")] }) ∧
    (containsSubstr "fetch failed" (MockServerClient.baseUrl ⟨"localhost", 1080, none⟩)
      = false) := by
  exact ⟨rfl, by decide⟩

/-- C1: a 406 response to verify is caught and converted into a negative
verification result whose message is the text "Verification failed: "
followed by the response body text; any other failure raised during verify
propagates to the caller unchanged. -/
theorem C1_verify_406_caught (cfg : MockServerClientConfig) (matcher : Json)
    (times : Option Times) (parse : String → Option Json) :
    (∀ bodyText : String,
      (MockServerClient.verify cfg matcher times parse (.response 406 (.ok bodyText))).2
        = .ok { success := false, matchedCount := 0,
                message := some ("Verification failed: " ++ bodyText) }) ∧
    (∀ (outcome : FetchOutcome) (e : ToolError),
      requestResult (MockServerClient.baseUrl cfg) (MockServerClient.timeoutMs cfg) parse outcome
        = .error e →
      e.code ≠ ErrorCode.VERIFICATION_FAILED →
      (MockServerClient.verify cfg matcher times parse outcome).2 = .error e) := by
  constructor
  · intro bodyText
    simp [MockServerClient.verify, MockServerClient.request, requestResult, responseOk,
      classifyError, BodyRead.asText]
  · intro outcome e h hne
    simp [MockServerClient.verify, MockServerClient.request, h, hne]

/-- C1 witness: the 406 conversion and the propagation of a
connection-failed failure, at concrete inputs. -/
theorem C1_witness :
    ((MockServerClient.verify ⟨"localhost", 1080, none⟩ (Json.obj []) none (fun _ => none)
        (.response 406 (.ok "Request not matched"))).2
      = .ok { success := false, matchedCount := 0,
              message := some "Verification failed: Request not matched" }) ∧
    ((MockServerClient.verify ⟨"localhost", 1080, none⟩ (Json.obj []) none (fun _ => none)
        (.errorThrown ⟨"TypeError", "fetch failed"⟩)).2
      = .error { code := .CONNECTION_FAILED,
                 message := "Cannot connect to MockServer at http://localhost:1080",
                 details := some [("originalError", Json.str "fetch failed")] }) := by
  obtain ⟨h1, h2⟩ := C1_verify_406_caught ⟨"localhost", 1080, none⟩ (Json.obj []) none
    (fun _ => none)
  exact ⟨h1 "Request not matched",
    h2 (.errorThrown ⟨"TypeError", "fetch failed"⟩)
      { code := .CONNECTION_FAILED,
        message := "Cannot connect to MockServer at http://localhost:1080",
        details := some [("originalError", Json.str "fetch failed")] }
      rfl (by decide)⟩

/-- C4: on a success response, verify's matched count is computed from the
supplied count spec alone: its exactly value if present, else its atLeast
value if present, else 1; it is never read from the response. -/
theorem C4_verify_success_count (cfg : MockServerClientConfig) (matcher : Json)
    (times : Option Times) (parse : String → Option Json) (outcome : FetchOutcome)
    (res : ReqResult)
    (h : requestResult (MockServerClient.baseUrl cfg) (MockServerClient.timeoutMs cfg) parse outcome
      = .ok res) :
    (MockServerClient.verify cfg matcher times parse outcome).2
      = .ok { success := true, matchedCount := specVerifyCount times, message := none } := by
  have hcount :
      (match times.bind Times.exactly with
        | some k => k
        | none =>
          match times.bind Times.atLeast with
          | some a => a
          | none => 1) = specVerifyCount times := by
    cases times with
    | none => rfl
    | some t =>
      obtain ⟨al, am, ex⟩ := t
      cases ex <;> cases al <;> rfl
  simp [MockServerClient.verify, MockServerClient.request, h, hcount]

/-- C4 witness: no count spec gives matched count 1; an exactly-3 spec gives
matched count 3, both on a concrete 202 response. -/
theorem C4_witness :
    ((MockServerClient.verify ⟨"localhost", 1080, none⟩ (Json.obj []) none (fun _ => none)
        (.response 202 (.ok ""))).2
      = .ok { success := true, matchedCount := 1, message := none }) ∧
    ((MockServerClient.verify ⟨"localhost", 1080, none⟩ (Json.obj [])
        (some { exactly := some 3 }) (fun _ => none) (.response 202 (.ok ""))).2
      = .ok { success := true, matchedCount := 3, message := none }) := by
  exact ⟨C4_verify_success_count ⟨"localhost", 1080, none⟩ (Json.obj []) none (fun _ => none)
      (.response 202 (.ok "")) (.json (.obj [])) rfl,
    C4_verify_success_count ⟨"localhost", 1080, none⟩ (Json.obj [])
      (some { exactly := some 3 }) (fun _ => none)
      (.response 202 (.ok "")) (.json (.obj [])) rfl⟩

/-- C5 (amended): for createExpectation, clear, reset and
retrieveRecordedRequests, every non-2xx response status other than 406
raises the generic MOCKSERVER_ERROR failure carrying the status code and
the body read as text (the placeholder "Unknown error" when the body is
unreadable); a 406 is the one exception, raised as verification-mismatch by
the shared primitive (see the counterexample). -/
theorem C5_non2xx_non406_remote_error (cfg : MockServerClientConfig)
    (parse : String → Option Json) (status : Nat) (body : BodyRead)
    (expectation : Json) (matcher : Option Json)
    (h1 : responseOk status = false) (h2 : status ≠ 406) :
    ((MockServerClient.createExpectation cfg expectation parse (.response status body)).2
      = .error { code := .MOCKSERVER_ERROR,
                 message := "MockServer error: " ++ body.asText,
                 details := some [("statusCode", Json.num (Int.ofNat status))] }) ∧
    ((MockServerClient.clear cfg matcher parse (.response status body)).2
      = .error { code := .MOCKSERVER_ERROR,
                 message := "MockServer error: " ++ body.asText,
                 details := some [("statusCode", Json.num (Int.ofNat status))] }) ∧
    ((MockServerClient.reset cfg parse (.response status body)).2
      = .error { code := .MOCKSERVER_ERROR,
                 message := "MockServer error: " ++ body.asText,
                 details := some [("statusCode", Json.num (Int.ofNat status))] }) ∧
    ((MockServerClient.retrieveRecordedRequests cfg matcher parse (.response status body)).2
      = .error { code := .MOCKSERVER_ERROR,
                 message := "MockServer error: " ++ body.asText,
                 details := some [("statusCode", Json.num (Int.ofNat status))] }) ∧
    (∀ e : JsError, BodyRead.asText (.failed e) = "Unknown error") := by
  have hr : requestResult (MockServerClient.baseUrl cfg) (MockServerClient.timeoutMs cfg)
      parse (.response status body)
      = .error { code := .MOCKSERVER_ERROR,
                 message := "MockServer error: " ++ body.asText,
                 details := some [("statusCode", Json.num (Int.ofNat status))] } := by
    simp [requestResult, h1, h2, classifyError]
  refine ⟨?_, ?_, ?_, ?_, fun e => rfl⟩ <;>
    · simp only [MockServerClient.createExpectation, MockServerClient.clear,
        MockServerClient.reset, MockServerClient.retrieveRecordedRequests,
        MockServerClient.request, hr]
      rfl

/-- C5 witness: a concrete 500 response with a readable body and a concrete
404 response with an unreadable body, through the four operations. -/
theorem C5_witness :
    (responseOk 500 = false) ∧ ((500 : Nat) ≠ 406) ∧
    ((MockServerClient.createExpectation ⟨"localhost", 1080, none⟩ (Json.obj [])
        (fun _ => none) (.response 500 (.ok "oops"))).2
      = .error { code := .MOCKSERVER_ERROR, message := "MockServer error: oops",
                 details := some [("statusCode", Json.num 500)] }) ∧
    ((MockServerClient.clear ⟨"localhost", 1080, none⟩ none (fun _ => none)
        (.response 500 (.ok "oops"))).2
      = .error { code := .MOCKSERVER_ERROR, message := "MockServer error: oops",
                 details := some [("statusCode", Json.num 500)] }) ∧
    ((MockServerClient.reset ⟨"localhost", 1080, none⟩ (fun _ => none)
        (.response 500 (.ok "oops"))).2
      = .error { code := .MOCKSERVER_ERROR, message := "MockServer error: oops",
                 details := some [("statusCode", Json.num 500)] }) ∧
    ((MockServerClient.retrieveRecordedRequests ⟨"localhost", 1080, none⟩ none (fun _ => none)
        (.response 404 (.failed ⟨"TypeError", "body unreadable"⟩))).2
      = .error { code := .MOCKSERVER_ERROR, message := "MockServer error: Unknown error",
                 details := some [("statusCode", Json.num 404)] }) := by
  obtain ⟨ha, hb, hc, _, _⟩ := C5_non2xx_non406_remote_error ⟨"localhost", 1080, none⟩
    (fun _ => none) 500 (.ok "oops") (Json.obj []) none (by decide) (by decide)
  obtain ⟨_, _, _, hd, _⟩ := C5_non2xx_non406_remote_error ⟨"localhost", 1080, none⟩
    (fun _ => none) 404 (.failed ⟨"TypeError", "body unreadable"⟩) (Json.obj []) none
    (by decide) (by decide)
  exact ⟨by decide, by decide, ha, hb, hc, hd⟩

/-- C5 counterexample to the claim as stated: a 406 response to clear is a
non-2xx status, yet the raised failure has kind VERIFICATION_FAILED, not
the generic MOCKSERVER_ERROR — the shared primitive special-cases 406
regardless of which operation called it. -/
theorem C5_counterexample :
    ((MockServerClient.clear ⟨"localhost", 1080, none⟩ none (fun _ => none)
        (.response 406 (.ok "no match"))).2
      = .error { code := .VERIFICATION_FAILED,
                 message := "Verification failed: no match",
                 details := some [("statusCode", Json.num 406)] }) ∧
    (responseOk 406 = false) ∧
    (ErrorCode.VERIFICATION_FAILED ≠ ErrorCode.MOCKSERVER_ERROR) := by
  exact ⟨rfl, by decide, by decide⟩

/-- C7: retrieveRecordedRequests always appends the query hint
type=REQUESTS to its request URL, and on a success response whose body
parses to a JSON array it returns that array verbatim (the empty array
gives the empty sequence). -/
theorem C7_retrieve_query_hint_and_array (cfg : MockServerClientConfig)
    (matcher : Option Json) (parse : String → Option Json) :
    (∀ outcome : FetchOutcome,
      (MockServerClient.retrieveRecordedRequests cfg matcher parse outcome).1.url
        = MockServerClient.baseUrl cfg ++ "/mockserver/retrieve?type=REQUESTS") ∧
    (∀ (status : Nat) (text : String) (xs : List Json),
      responseOk status = true → text ≠ "" → parse text = some (.arr xs) →
      (MockServerClient.retrieveRecordedRequests cfg matcher parse
          (.response status (.ok text))).2
        = .ok xs) := by
  constructor
  · intro outcome
    show requestUrl (MockServerClient.baseUrl cfg) "/mockserver/retrieve"
        (some [("type", "REQUESTS")]) = _
    rw [requestUrl, String.append_assoc, String.append_assoc]
    congr 1
  · intro status text xs h1 h2 h3
    simp only [MockServerClient.retrieveRecordedRequests, MockServerClient.request,
      requestResult, h1, h2, h3, if_true, if_neg h2]
    rfl

/-- C7 witness: the URL carries the query hint, the empty JSON array body
gives the empty sequence, and a populated array body is returned verbatim. -/
theorem C7_witness :
    ((MockServerClient.retrieveRecordedRequests ⟨"localhost", 1080, none⟩ none
        (fun s => if s = "emptyarr" then some (Json.arr [])
          else if s = "fullarr" then some (Json.arr [Json.obj [("path", Json.str "/t")]])
          else none)
        (.response 200 (.ok "emptyarr"))).1.url
      = "http://localhost:1080/mockserver/retrieve?type=REQUESTS") ∧
    ((MockServerClient.retrieveRecordedRequests ⟨"localhost", 1080, none⟩ none
        (fun s => if s = "emptyarr" then some (Json.arr [])
          else if s = "fullarr" then some (Json.arr [Json.obj [("path", Json.str "/t")]])
          else none)
        (.response 200 (.ok "emptyarr"))).2 = .ok []) ∧
    ((MockServerClient.retrieveRecordedRequests ⟨"localhost", 1080, none⟩ none
        (fun s => if s = "emptyarr" then some (Json.arr [])
          else if s = "fullarr" then some (Json.arr [Json.obj [("path", Json.str "/t")]])
          else none)
        (.response 200 (.ok "fullarr"))).2
      = .ok [Json.obj [("path", Json.str "/t")]]) := by
  obtain ⟨hu, hx⟩ := C7_retrieve_query_hint_and_array ⟨"localhost", 1080, none⟩ none
    (fun s => if s = "emptyarr" then some (Json.arr [])
      else if s = "fullarr" then some (Json.arr [Json.obj [("path", Json.str "/t")]])
      else none)
  exact ⟨hu (.response 200 (.ok "emptyarr")),
    hx 200 "emptyarr" [] (by decide) (by decide) rfl,
    hx 200 "fullarr" [Json.obj [("path", Json.str "/t")]] (by decide) (by decide) rfl⟩

/-- C8: the body clear sends is determined by its optional matcher: the
empty JSON object when the matcher is omitted, and an object with the
single field httpRequest holding the matcher otherwise. -/
theorem C8_clear_body (cfg : MockServerClientConfig) (parse : String → Option Json)
    (outcome : FetchOutcome) :
    ((MockServerClient.clear cfg none parse outcome).1.body = Json.obj []) ∧
    (∀ m : Json, (MockServerClient.clear cfg (some m) parse outcome).1.body
      = Json.obj [("httpRequest", m)]) :=
  ⟨rfl, fun _ => rfl⟩

/-- C8 witness: clear() sends the empty object and clear with a path
matcher wraps it in httpRequest, at concrete inputs. -/
theorem C8_witness :
    ((MockServerClient.clear ⟨"localhost", 1080, none⟩ none (fun _ => none)
        (.response 200 (.ok ""))).1.body = Json.obj []) ∧
    ((MockServerClient.clear ⟨"localhost", 1080, none⟩
        (some (Json.obj [("path", Json.str "/test")])) (fun _ => none)
        (.response 200 (.ok ""))).1.body
      = Json.obj [("httpRequest", Json.obj [("path", Json.str "/test")])]) := by
  obtain ⟨h1, h2⟩ := C8_clear_body ⟨"localhost", 1080, none⟩ (fun _ => none)
    (.response 200 (.ok ""))
  exact ⟨h1, h2 (Json.obj [("path", Json.str "/test")])⟩

/-- C10: whenever the request primitive succeeds with a result that is not
a JSON array — a JSON object, a raw text string, or the empty-object result
of an empty body — retrieveRecordedRequests returns the empty sequence
rather than raising or returning a non-sequence value. -/
theorem C10_retrieve_non_array (cfg : MockServerClientConfig)
    (matcher : Option Json) (parse : String → Option Json) (outcome : FetchOutcome)
    (res : ReqResult)
    (h : requestResult (MockServerClient.baseUrl cfg) (MockServerClient.timeoutMs cfg) parse outcome
      = .ok res)
    (hres : res.isArrayRes = false) :
    (MockServerClient.retrieveRecordedRequests cfg matcher parse outcome).2 = .ok [] := by
  simp only [MockServerClient.retrieveRecordedRequests, MockServerClient.request, h]
  cases res with
  | json j => cases j <;> simp_all [ReqResult.isArrayRes, Except.map]
  | text s => rfl

/-- C10 witness: a JSON-object body, an unparseable body, and an empty body
each make retrieveRecordedRequests return the empty sequence. -/
theorem C10_witness :
    ((MockServerClient.retrieveRecordedRequests ⟨"localhost", 1080, none⟩ none
        (fun s => if s = "objbody" then some (Json.obj [("a", Json.num 1)]) else none)
        (.response 200 (.ok "objbody"))).2 = .ok []) ∧
    ((MockServerClient.retrieveRecordedRequests ⟨"localhost", 1080, none⟩ none
        (fun _ => none) (.response 200 (.ok "plain text"))).2 = .ok []) ∧
    ((MockServerClient.retrieveRecordedRequests ⟨"localhost", 1080, none⟩ none
        (fun _ => none) (.response 200 (.ok ""))).2 = .ok []) := by
  exact ⟨C10_retrieve_non_array ⟨"localhost", 1080, none⟩ none
      (fun s => if s = "objbody" then some (Json.obj [("a", Json.num 1)]) else none)
      (.response 200 (.ok "objbody")) (.json (Json.obj [("a", Json.num 1)])) rfl rfl,
    C10_retrieve_non_array ⟨"localhost", 1080, none⟩ none (fun _ => none)
      (.response 200 (.ok "plain text")) (.text "plain text") rfl rfl,
    C10_retrieve_non_array ⟨"localhost", 1080, none⟩ none (fun _ => none)
      (.response 200 (.ok "")) (.json (.obj [])) rfl rfl⟩

/-- C3: getStatus never propagates a connection-class failure: a
CONNECTION_FAILED or CONNECTION_TIMEOUT probe failure is converted to a
not-reachable status, any other failure propagates, and a successful probe
yields a reachable status whose version is read from the response body's
version field when present. -/
theorem C3_getStatus_swallows_connection_failures (cfg : MockServerClientConfig)
    (parse : String → Option Json) (outcome : FetchOutcome) :
    (∀ e : ToolError,
      requestResult (MockServerClient.baseUrl cfg) (MockServerClient.timeoutMs cfg) parse outcome
        = .error e →
      e.code = ErrorCode.CONNECTION_FAILED ∨ e.code = ErrorCode.CONNECTION_TIMEOUT →
      (MockServerClient.getStatus cfg parse outcome).2
        = .ok { host := statusHostOf cfg, port := statusPortOf cfg,
                reachable := false, version := none }) ∧
    (∀ e : ToolError,
      requestResult (MockServerClient.baseUrl cfg) (MockServerClient.timeoutMs cfg) parse outcome
        = .error e →
      e.code ≠ ErrorCode.CONNECTION_FAILED → e.code ≠ ErrorCode.CONNECTION_TIMEOUT →
      (MockServerClient.getStatus cfg parse outcome).2 = .error e) ∧
    (∀ res : ReqResult,
      requestResult (MockServerClient.baseUrl cfg) (MockServerClient.timeoutMs cfg) parse outcome
        = .ok res →
      (MockServerClient.getStatus cfg parse outcome).2
        = .ok { host := statusHostOf cfg, port := statusPortOf cfg,
                reachable := true, version := versionField res }) ∧
    (∀ (fields : List (String × Json)) (v : Json),
      requestResult (MockServerClient.baseUrl cfg) (MockServerClient.timeoutMs cfg) parse outcome
        = .ok (.json (.obj fields)) →
      fields.lookup "version" = some v →
      (MockServerClient.getStatus cfg parse outcome).2
        = .ok { host := statusHostOf cfg, port := statusPortOf cfg,
                reachable := true, version := some v }) := by
  refine ⟨?_, ?_, ?_, ?_⟩
  · intro e h hc
    simp only [MockServerClient.getStatus, MockServerClient.request, h]
    rw [if_pos hc]
  · intro e h hc1 hc2
    simp only [MockServerClient.getStatus, MockServerClient.request, h]
    rw [if_neg (by simp [hc1, hc2])]
  · intro res h
    simp only [MockServerClient.getStatus, MockServerClient.request, h]
  · intro fields v h hv
    simp only [MockServerClient.getStatus, MockServerClient.request, h, versionField,
      Json.getField, hv]

/-- C3 witness: a concrete connection failure yields a not-reachable
status without raising, and a concrete success response carries the
version field through. -/
theorem C3_witness :
    ((MockServerClient.getStatus ⟨"localhost", 1080, none⟩ (fun _ => none)
        (.errorThrown ⟨"TypeError", "fetch failed"⟩)).2
      = .ok { host := "localhost", port := some 1080, reachable := false, version := none }) ∧
    ((MockServerClient.getStatus ⟨"localhost", 1080, none⟩
        (fun s => if s = "statusbody" then some (Json.obj [("version", Json.str "5.15.0")])
          else none)
        (.response 200 (.ok "statusbody"))).2
      = .ok { host := "localhost", port := some 1080, reachable := true,
              version := some (Json.str "5.15.0") }) := by
  obtain ⟨h1, _, _, _⟩ := C3_getStatus_swallows_connection_failures ⟨"localhost", 1080, none⟩
    (fun _ => none) (.errorThrown ⟨"TypeError", "fetch failed"⟩)
  obtain ⟨_, _, _, h4⟩ := C3_getStatus_swallows_connection_failures ⟨"localhost", 1080, none⟩
    (fun s => if s = "statusbody" then some (Json.obj [("version", Json.str "5.15.0")])
      else none)
    (.response 200 (.ok "statusbody"))
  refine ⟨?_, ?_⟩
  · exact h1 ⟨.CONNECTION_FAILED, "Cannot connect to MockServer at http://localhost:1080",
      some [("originalError", Json.str "fetch failed")]⟩ rfl (Or.inl rfl)
  · exact h4 [("version", Json.str "5.15.0")] (Json.str "5.15.0") rfl rfl

/-- C9 (amended): for every host string that contains no colon and every
port, the host and port recovered by getStatus from the stored base URL —
strip the scheme, split on the colon, parse the port — round-trip the
construction inputs exactly, and both getStatus result branches carry them;
a host containing a colon breaks the recovery (see the counterexample). -/
theorem C9_status_host_port_roundtrip (host : String) (port : Nat) (tmo : Option Nat)
    (parse : String → Option Json) (outcome : FetchOutcome)
    (hhost : ':' ∉ host.data) (_hp1 : 1 ≤ port) (_hp2 : port ≤ 65535) :
    statusHostOf ⟨host, port, tmo⟩ = host ∧
    statusPortOf ⟨host, port, tmo⟩ = some port ∧
    (∀ st : ServerStatus,
      (MockServerClient.getStatus ⟨host, port, tmo⟩ parse outcome).2 = Except.ok st →
      st.host = host ∧ st.port = some port) := by
  obtain ⟨hh, hp⟩ := statusParts_roundtrip host port tmo hhost
  refine ⟨hh, hp, ?_⟩
  intro st hst
  simp only [MockServerClient.getStatus, MockServerClient.request] at hst
  cases hr : requestResult (MockServerClient.baseUrl ⟨host, port, tmo⟩)
      (MockServerClient.timeoutMs ⟨host, port, tmo⟩) parse outcome with
  | ok res =>
    simp only [hr, Except.ok.injEq] at hst
    subst hst
    exact ⟨hh, hp⟩
  | error e =>
    simp only [hr] at hst
    by_cases hc : e.code = ErrorCode.CONNECTION_FAILED ∨ e.code = ErrorCode.CONNECTION_TIMEOUT
    · rw [if_pos hc] at hst
      simp only [Except.ok.injEq] at hst
      subst hst
      exact ⟨hh, hp⟩
    · rw [if_neg hc] at hst
      exact absurd hst (by simp)

/-- C9 witness: the round-trip at host localhost and port 1080, applied to
a concrete connection-failure outcome. -/
theorem C9_witness :
    (statusHostOf ⟨"localhost", 1080, none⟩ = "localhost") ∧
    (statusPortOf ⟨"localhost", 1080, none⟩ = some 1080) ∧
    (({ host := "localhost", port := some 1080, reachable := false,
        version := none } : ServerStatus).host = "localhost" ∧
     ({ host := "localhost", port := some 1080, reachable := false,
        version := none } : ServerStatus).port = some 1080) := by
  obtain ⟨h1, h2, h3⟩ := C9_status_host_port_roundtrip "localhost" 1080 none (fun _ => none)
    (.errorThrown ⟨"TypeError", "fetch failed"⟩) (by decide) (by decide) (by decide)
  exact ⟨h1, h2, h3 ⟨"localhost", some 1080, false, none⟩ rfl⟩

/-- C9 counterexample to the claim as stated: for the host string "a:b"
(which contains a colon) and port 80, getStatus recovers host "a" — not
"a:b" — and a NaN port, so the parsing does not round-trip every host
string. -/
theorem C9_counterexample :
    ((MockServerClient.getStatus ⟨"a:b", 80, none⟩ (fun _ => none)
        (.response 200 (.ok ""))).2
      = .ok { host := "a", port := none, reachable := true, version := none }) ∧
    (("a" : String) ≠ "a:b") ∧ ((none : Option Nat) ≠ some 80) := by
  exact ⟨rfl, by decide, by decide⟩
